import Mathlib

/-!
Shallow embedding of `backend/settings.py`: the configuration-resolution and
payload-construction engine of the repository.

Modelling conventions, fixed once for the whole file:

* Pydantic models become Lean structures.  Environment-sourced raw input is a
  separate `...Env` structure whose required fields are `Option`-typed (absent
  is possible); `tryConstruct` embeds pydantic validation: it fails exactly
  when a required field is absent, and otherwise runs the model's
  `@model_validator(mode="after")` hooks, in definition order, as pure
  derivation steps.  (At runtime the hooks mutate `self` in place and the
  model is built through `__init__` with `self_instance`, so a hook's return
  value is discarded; the slips in the source where a hook returns `Self` or
  nothing therefore do not change the constructed instance, and the in-place
  mutations are what this embedding records.)
* Python truthiness of `Optional[str]` / `Optional[int]` is `pyTruthy` /
  `pyTruthyInt` (`None` and `""` / `0` are falsy).
* `model_dump(exclude_none=True, by_alias=True)` becomes an explicit
  association list in field-definition order: fields declared with
  `exclude=True` never appear, `None`-valued optional fields are dropped, and
  serialization aliases are used as keys.  `exclude_none` applies to model
  fields only; values inside a plain `dict`-typed field (such as
  `fields_mapping`) are serialized verbatim, `None` entries included.
* `dict.update` becomes `dictUpdate` (values of the second map win on key
  collision, insertion order of the first map is kept, new keys appended).
* Raising becomes `Except.error`; the raised message is the payload.
* `generateFilterString` lives in `backend/utils.py`, outside the embedded
  module; the spec treats it as an external collaborator capability, so every
  payload-construction function is parameterized by `gfs : String → String`.
-/

/-- JSON-like values, the codomain of pydantic serialization. -/
inductive JValue where
  | jstr : String → JValue
  | jint : Int → JValue
  | jbool : Bool → JValue
  | jnull : JValue
  | jlist : List JValue → JValue
  | jobj : List (String × JValue) → JValue

/-- Python truthiness of an `Optional[str]`: `None` and the empty string are falsy. -/
def pyTruthy : Option String → Bool
  | some s => !s.isEmpty
  | none => false

/-- Python truthiness of an `Optional[int]`: `None` and `0` are falsy. -/
def pyTruthyInt : Option Int → Bool
  | some n => n != 0
  | none => false

/-- Serialization of an `Optional[str]` value stored inside a plain dict: `None` becomes JSON null. -/
def optStrJ : Option String → JValue
  | some s => .jstr s
  | none => .jnull

/-- Serialization of an `Optional[List[str]]` value stored inside a plain dict: `None` becomes JSON null. -/
def optListJ : Option (List String) → JValue
  | some l => .jlist (l.map .jstr)
  | none => .jnull

/-- Entry of an optional model field in a `model_dump(exclude_none=True)`: omitted when `None`. -/
def optEntry (k : String) (v : Option JValue) : List (String × JValue) :=
  match v with
  | some j => [(k, j)]
  | none => []

/-- Embedding of Python `base.update(upd)` on dicts: keys of `base` keep their
position but take the value from `upd` when present there; keys only in `upd`
are appended in order. -/
def dictUpdate (base upd : List (String × JValue)) : List (String × JValue) :=
  (base.map fun kv =>
    match upd.lookup kv.1 with
    | some v => (kv.1, v)
    | none => kv)
  ++ upd.filter fun uv => (base.lookup uv.1).isNone

/-- Union written to the spec's words for the payload `parameters` map:
the variant's own fields unioned with the search group's fields, with
variant-specific values winning on key collision.  Declared only to be
compared with the map the source actually computes. -/
def specUnion (variant search : List (String × JValue)) : List (String × JValue) :=
  variant ++ search.filter fun sv => (variant.lookup sv.1).isNone

/-- Embedding of `pydantic.alias_generators.to_snake` on the inputs that occur
here (letters, digits and underscores): an underscore is inserted before an
upper-case letter that follows a lower-case letter or a digit, and the result
is lower-cased. -/
def to_snake (s : String) : String :=
  (s.toList.foldl
    (fun (acc : String × Option Char) c =>
      let sep : Bool :=
        match acc.2 with
        | some p => (p.isLower || p.isDigit) && c.isUpper
        | none => false
      (acc.1 ++ (if sep then "_" else "") ++ String.singleton c.toLower, some c))
    ("", none)).1

/-- The per-request context: an HTTP request reduced to its header map. -/
structure Request where
  headers : List (String × String)
deriving Repr, DecidableEq

/-- Header lookup with default, embedding `request.headers.get(name, "")`. -/
def Request.getHeader (r : Request) (name : String) : String :=
  (r.headers.lookup name).getD ""

/-! ## `_AzureOpenAISettings` (the model-settings group)

Only the fields the embedded behavior reads are carried: the endpoint /
resource pair consumed by `ensure_endpoint`, and the three embedding fields
consumed by `extract_embedding_dependency`. -/

/-- Raw environment input of the model-settings group. -/
structure AzureOpenAISettingsEnv where
  endpoint : Option String := none
  resource : Option String := none
  embedding_name : Option String := none
  embedding_endpoint : Option String := none
  embedding_key : Option String := none
deriving Repr, DecidableEq

/-- The constructed model-settings group (post `ensure_endpoint`). -/
structure AzureOpenAISettings where
  endpoint : String
  embedding_name : Option String := none
  embedding_endpoint : Option String := none
  embedding_key : Option String := none
deriving Repr, DecidableEq

/-- Embedding of `_AzureOpenAISettings.ensure_endpoint`: keep a truthy explicit
endpoint, else synthesize it from a truthy resource name, else fail. -/
def ensure_endpoint (e : AzureOpenAISettingsEnv) : Except String AzureOpenAISettings :=
  if pyTruthy e.endpoint then
    .ok { endpoint := e.endpoint.getD ""
          embedding_name := e.embedding_name
          embedding_endpoint := e.embedding_endpoint
          embedding_key := e.embedding_key }
  else if pyTruthy e.resource then
    .ok { endpoint := "https://" ++ e.resource.getD "" ++ ".openai.azure.com"
          embedding_name := e.embedding_name
          embedding_endpoint := e.embedding_endpoint
          embedding_key := e.embedding_key }
  else
    .error "AZURE_OPENAI_ENDPOINT or AZURE_OPENAI_RESOURCE is required"

/-- Embedding of `_AzureOpenAISettings.extract_embedding_dependency`. -/
def AzureOpenAISettings.extract_embedding_dependency (s : AzureOpenAISettings) : Option JValue :=
  if pyTruthy s.embedding_name then
    some (.jobj [("type", .jstr "deployment_name"),
                 ("deployment_name", .jstr (s.embedding_name.getD ""))])
  else if pyTruthy s.embedding_endpoint then
    if pyTruthy s.embedding_key then
      some (.jobj [("type", .jstr "endpoint"),
                   ("endpoint", .jstr (s.embedding_endpoint.getD "")),
                   ("authentication", .jobj [("type", .jstr "api_key"),
                                             ("key", .jstr (s.embedding_key.getD ""))])])
    else
      some (.jobj [("type", .jstr "endpoint"),
                   ("endpoint", .jstr (s.embedding_endpoint.getD "")),
                   ("authentication", .jobj [("type", .jstr "system_assigned_managed_identity")])])
  else
    none

/-! ## `_SearchCommonSettings` (the search-wide defaults group) -/

/-- The search-defaults group.  `include_contexts` is never `None` after its
`mode="before"` validator (a non-string or empty input resolves to the field
default), so it is carried as a plain list. -/
structure SearchCommonSettings where
  max_search_queries : Option Int := none
  allow_partial_result : Bool := false
  include_contexts : List String := ["citations", "intent"]
  vectorization_dimensions : Option Int := none
  role_information : String := "You are an AI assistant that helps people find information."
deriving Repr, DecidableEq

/-- Embedding of `_SearchCommonSettings.model_dump(exclude_none=True, by_alias=True)`. -/
def searchDump (s : SearchCommonSettings) : List (String × JValue) :=
  optEntry "max_search_queries" (s.max_search_queries.map .jint)
  ++ [("allow_partial_result", .jbool s.allow_partial_result),
      ("include_contexts", .jlist (s.include_contexts.map .jstr))]
  ++ optEntry "vectorization_dimensions" (s.vectorization_dimensions.map .jint)
  ++ [("role_information", .jstr s.role_information)]

/-- Read-only back-reference a datasource variant holds into the application
settings root: it is used solely to pull the model-settings and
search-settings groups at payload-construction time. -/
structure SettingsRef where
  azure_openai : AzureOpenAISettings
  search : SearchCommonSettings
deriving Repr, DecidableEq

/-! ## `_AzureSearchSettings` (discriminator `AzureCognitiveSearch`, tag `azure_search`) -/

/-- Raw environment input of the Azure Search variant.  `service` and `index`
are the required fields; everything else is optional or defaulted.  The
comma-separated column fields are carried post-`split_columns`. -/
structure AzureSearchEnv where
  top_k : Int := 5
  strictness : Int := 3
  enable_in_domain : Bool := true
  service : Option String := none
  endpoint_suffix : String := "search.windows.net"
  index : Option String := none
  key : Option String := none
  semantic_search_config : String := ""
  content_columns : Option (List String) := none
  vector_columns : Option (List String) := none
  title_column : Option String := none
  url_column : Option String := none
  filename_column : Option String := none
  query_type : String := "simple"
  permitted_groups_column : Option String := none

/-- The constructed Azure Search variant, raw fields plus the fields written by
its `mode="after"` validators (`set_endpoint`, `set_authentication`,
`set_fields_mapping`, `set_query_type`) and the two payload-time fields
(`embedding_dependency`, `filter`). -/
structure AzureSearchSettings where
  top_k : Int
  strictness : Int
  enable_in_domain : Bool
  service : String
  endpoint_suffix : String
  index : String
  key : Option String
  semantic_search_config : String
  content_columns : Option (List String)
  vector_columns : Option (List String)
  title_column : Option String
  url_column : Option String
  filename_column : Option String
  query_type : String
  permitted_groups_column : Option String
  endpoint : String
  authentication : JValue
  fields_mapping : JValue
  embedding_dependency : Option JValue
  filter : Option String

/-- Embedding of the shared `set_fields_mapping` validator body: the
role-to-column dict is built with all five keys, unset columns contributing
Python `None` (serialized as null). -/
def mkFieldsMapping (content_columns vector_columns : Option (List String))
    (title_column url_column filename_column : Option String) : JValue :=
  .jobj [("content_fields", optListJ content_columns),
         ("title_field", optStrJ title_column),
         ("url_field", optStrJ url_column),
         ("filepath_field", optStrJ filename_column),
         ("vector_fields", optListJ vector_columns)]

/-- Embedding of `_AzureSearchSettings` construction: pydantic requires
`service` and `index`; the after-validators then derive `endpoint`,
`authentication`, `fields_mapping` and normalize `query_type`. -/
def AzureSearchSettings.tryConstruct (e : AzureSearchEnv) : Except String AzureSearchSettings :=
  match e.service, e.index with
  | some sv, some ix =>
    .ok { top_k := e.top_k
          strictness := e.strictness
          enable_in_domain := e.enable_in_domain
          service := sv
          endpoint_suffix := e.endpoint_suffix
          index := ix
          key := e.key
          semantic_search_config := e.semantic_search_config
          content_columns := e.content_columns
          vector_columns := e.vector_columns
          title_column := e.title_column
          url_column := e.url_column
          filename_column := e.filename_column
          query_type := to_snake e.query_type
          permitted_groups_column := e.permitted_groups_column
          endpoint := "https://" ++ sv ++ "." ++ e.endpoint_suffix
          authentication :=
            if pyTruthy e.key then
              .jobj [("type", .jstr "api_key"), ("key", .jstr (e.key.getD ""))]
            else
              .jobj [("type", .jstr "system_assigned_managed_identity")]
          fields_mapping := mkFieldsMapping e.content_columns e.vector_columns
            e.title_column e.url_column e.filename_column
          embedding_dependency := none
          filter := none }
  | _, _ => .error "validation error: AZURE_SEARCH_SERVICE and AZURE_SEARCH_INDEX are required"

/-- Embedding of `_AzureSearchSettings._set_filter_string`: with a truthy
access-control column, an absent or empty token header is a per-request
error; otherwise the external filter builder is applied to the token. -/
def AzureSearchSettings.set_filter_string (gfs : String → String)
    (s : AzureSearchSettings) (request : Request) : Except String (Option String) :=
  if pyTruthy s.permitted_groups_column then
    let user_token := request.getHeader "X-MS-TOKEN-AAD-ACCESS-TOKEN"
    if user_token.isEmpty then
      .error "Document-level access control is enabled, but user access token could not be fetched."
    else
      .ok (some (gfs user_token))
  else
    .ok none

/-- Embedding of `_AzureSearchSettings.model_dump(exclude_none=True,
by_alias=True)`: entries in field-definition order, `exclude=True` fields
(`service`, `endpoint_suffix`, `key`, `use_semantic_search`, the raw column
fields, `permitted_groups_column`, `filter`) omitted, aliases applied, and the
only optional serializable field, `embedding_dependency`, dropped when unset. -/
def azureSearchDump (s : AzureSearchSettings) : List (String × JValue) :=
  [("top_n_documents", .jint s.top_k),
   ("strictness", .jint s.strictness),
   ("in_scope", .jbool s.enable_in_domain),
   ("index_name", .jstr s.index),
   ("semantic_configuration", .jstr s.semantic_search_config),
   ("query_type", .jstr s.query_type),
   ("endpoint", .jstr s.endpoint),
   ("authentication", s.authentication)]
  ++ optEntry "embedding_dependency" s.embedding_dependency
  ++ [("fields_mapping", s.fields_mapping)]

/-- The normalized payload descriptor, the `{type, parameters}` structure every
variant's `construct_payload_configuration` returns. -/
structure Payload where
  type : String
  parameters : List (String × JValue)

/-- Embedding of `_AzureSearchSettings.construct_payload_configuration`.  The
instance is threaded as state: the transient `filter` field is rewritten from
the request when one is supplied and the access-control column is truthy
(raising when the token header is empty), `embedding_dependency` is resolved
from the model-settings group through the back-reference, and the parameters
map is the variant dump updated with the search-defaults dump. -/
def AzureSearchSettings.construct_payload_configuration (gfs : String → String)
    (ref : SettingsRef) (s : AzureSearchSettings) (request : Option Request) :
    Except String (AzureSearchSettings × Payload) := do
  let s ←
    match request with
    | some req =>
      if pyTruthy s.permitted_groups_column then do
        let f ← s.set_filter_string gfs req
        pure { s with filter := f }
      else
        pure s
    | none => pure s
  let s := { s with embedding_dependency := ref.azure_openai.extract_embedding_dependency }
  pure (s, { type := "azure_search",
             parameters := dictUpdate (azureSearchDump s) (searchDump ref.search) })

/-! ## `_AzureCosmosDbMongoVcoreSettings` (discriminator `AzureCosmosDB`, tag `azure_cosmosdb`) -/

/-- Raw environment input of the CosmosDB Mongo vCore variant; its required
fields are `connection_string`, `index`, `database` and `container`. -/
structure AzureCosmosDbMongoVcoreEnv where
  top_k : Int := 5
  strictness : Int := 3
  enable_in_domain : Bool := true
  query_type : String := "vector"
  connection_string : Option String := none
  index : Option String := none
  database : Option String := none
  container : Option String := none
  content_columns : Option (List String) := none
  vector_columns : Option (List String) := none
  title_column : Option String := none
  url_column : Option String := none
  filename_column : Option String := none

/-- The constructed CosmosDB Mongo vCore variant. -/
structure AzureCosmosDbMongoVcoreSettings where
  top_k : Int
  strictness : Int
  enable_in_domain : Bool
  query_type : String
  connection_string : String
  index : String
  database : String
  container : String
  content_columns : Option (List String)
  vector_columns : Option (List String)
  title_column : Option String
  url_column : Option String
  filename_column : Option String
  authentication : JValue
  fields_mapping : JValue
  embedding_dependency : Option JValue

/-- Embedding of `_AzureCosmosDbMongoVcoreSettings` construction: required
fields checked, then `construct_authentication` (always a connection string)
and `set_fields_mapping`. -/
def AzureCosmosDbMongoVcoreSettings.tryConstruct (e : AzureCosmosDbMongoVcoreEnv) :
    Except String AzureCosmosDbMongoVcoreSettings :=
  match e.connection_string, e.index, e.database, e.container with
  | some cs, some ix, some db, some ct =>
    .ok { top_k := e.top_k
          strictness := e.strictness
          enable_in_domain := e.enable_in_domain
          query_type := e.query_type
          connection_string := cs
          index := ix
          database := db
          container := ct
          content_columns := e.content_columns
          vector_columns := e.vector_columns
          title_column := e.title_column
          url_column := e.url_column
          filename_column := e.filename_column
          authentication := .jobj [("type", .jstr "connection_string"),
                                   ("connection_string", .jstr cs)]
          fields_mapping := mkFieldsMapping e.content_columns e.vector_columns
            e.title_column e.url_column e.filename_column
          embedding_dependency := none }
  | _, _, _, _ =>
    .error "validation error: AZURE_COSMOSDB_MONGO_VCORE_CONNECTION_STRING, _INDEX, _DATABASE and _CONTAINER are required"

/-- Embedding of the CosmosDB Mongo vCore `model_dump(exclude_none=True, by_alias=True)`. -/
def cosmosDump (s : AzureCosmosDbMongoVcoreSettings) : List (String × JValue) :=
  [("top_n_documents", .jint s.top_k),
   ("strictness", .jint s.strictness),
   ("in_scope", .jbool s.enable_in_domain),
   ("query_type", .jstr s.query_type),
   ("index_name", .jstr s.index),
   ("database_name", .jstr s.database),
   ("container_name", .jstr s.container),
   ("authentication", s.authentication)]
  ++ optEntry "embedding_dependency" s.embedding_dependency
  ++ [("fields_mapping", s.fields_mapping)]

/-- Embedding of `_AzureCosmosDbMongoVcoreSettings.construct_payload_configuration`. -/
def AzureCosmosDbMongoVcoreSettings.construct_payload_configuration
    (ref : SettingsRef) (s : AzureCosmosDbMongoVcoreSettings) :
    AzureCosmosDbMongoVcoreSettings × Payload :=
  let s := { s with embedding_dependency := ref.azure_openai.extract_embedding_dependency }
  (s, { type := "azure_cosmosdb",
        parameters := dictUpdate (cosmosDump s) (searchDump ref.search) })

/-! ## `_ElasticsearchSettings` (discriminator `Elasticsearch`, tag `elasticsearch`) -/

/-- Raw environment input of the Elasticsearch variant; its required fields
are `endpoint`, `encoded_api_key` and `index`. -/
structure ElasticsearchEnv where
  top_k : Int := 5
  strictness : Int := 3
  enable_in_domain : Bool := true
  endpoint : Option String := none
  encoded_api_key : Option String := none
  index : Option String := none
  query_type : String := "simple"
  content_columns : Option (List String) := none
  vector_columns : Option (List String) := none
  title_column : Option String := none
  url_column : Option String := none
  filename_column : Option String := none
  embedding_model_id : Option String := none

/-- The constructed Elasticsearch variant. -/
structure ElasticsearchSettings where
  top_k : Int
  strictness : Int
  enable_in_domain : Bool
  endpoint : String
  encoded_api_key : String
  index : String
  query_type : String
  content_columns : Option (List String)
  vector_columns : Option (List String)
  title_column : Option String
  url_column : Option String
  filename_column : Option String
  embedding_model_id : Option String
  authentication : JValue
  fields_mapping : JValue
  embedding_dependency : Option JValue

/-- Embedding of `_ElasticsearchSettings` construction. -/
def ElasticsearchSettings.tryConstruct (e : ElasticsearchEnv) :
    Except String ElasticsearchSettings :=
  match e.endpoint, e.encoded_api_key, e.index with
  | some ep, some ak, some ix =>
    .ok { top_k := e.top_k
          strictness := e.strictness
          enable_in_domain := e.enable_in_domain
          endpoint := ep
          encoded_api_key := ak
          index := ix
          query_type := e.query_type
          content_columns := e.content_columns
          vector_columns := e.vector_columns
          title_column := e.title_column
          url_column := e.url_column
          filename_column := e.filename_column
          embedding_model_id := e.embedding_model_id
          authentication := .jobj [("type", .jstr "encoded_api_key"),
                                   ("encoded_api_key", .jstr ak)]
          fields_mapping := mkFieldsMapping e.content_columns e.vector_columns
            e.title_column e.url_column e.filename_column
          embedding_dependency := none }
  | _, _, _ =>
    .error "validation error: ELASTICSEARCH_ENDPOINT, _ENCODED_API_KEY and _INDEX are required"

/-- Embedding of the Elasticsearch `model_dump(exclude_none=True, by_alias=True)`. -/
def elasticsearchDump (s : ElasticsearchSettings) : List (String × JValue) :=
  [("top_n_documents", .jint s.top_k),
   ("strictness", .jint s.strictness),
   ("in_scope", .jbool s.enable_in_domain),
   ("endpoint", .jstr s.endpoint),
   ("index_name", .jstr s.index),
   ("query_type", .jstr s.query_type),
   ("authentication", s.authentication)]
  ++ optEntry "embedding_dependency" s.embedding_dependency
  ++ [("fields_mapping", s.fields_mapping)]

/-- Embedding of `_ElasticsearchSettings.construct_payload_configuration`: a
truthy locally configured `embedding_model_id` takes precedence over the
model-settings group's embedding dependency. -/
def ElasticsearchSettings.construct_payload_configuration
    (ref : SettingsRef) (s : ElasticsearchSettings) :
    ElasticsearchSettings × Payload :=
  let dep : Option JValue :=
    if pyTruthy s.embedding_model_id then
      some (.jobj [("type", .jstr "model_id"),
                   ("model_id", .jstr (s.embedding_model_id.getD ""))])
    else
      ref.azure_openai.extract_embedding_dependency
  let s := { s with embedding_dependency := dep }
  (s, { type := "elasticsearch",
        parameters := dictUpdate (elasticsearchDump s) (searchDump ref.search) })

/-! ## `_PineconeSettings` (discriminator `Pinecone`, tag `pinecone`) -/

/-- Raw environment input of the Pinecone variant; its required fields are
`environment`, `api_key` and `index_name`. -/
structure PineconeEnv where
  top_k : Int := 5
  strictness : Int := 3
  enable_in_domain : Bool := true
  environment : Option String := none
  api_key : Option String := none
  index_name : Option String := none
  content_columns : Option (List String) := none
  vector_columns : Option (List String) := none
  title_column : Option String := none
  url_column : Option String := none
  filename_column : Option String := none

/-- The constructed Pinecone variant; its `query_type` is literally `vector`. -/
structure PineconeSettings where
  top_k : Int
  strictness : Int
  enable_in_domain : Bool
  environment : String
  api_key : String
  index_name : String
  content_columns : Option (List String)
  vector_columns : Option (List String)
  title_column : Option String
  url_column : Option String
  filename_column : Option String
  authentication : JValue
  fields_mapping : JValue
  embedding_dependency : Option JValue

/-- Embedding of `_PineconeSettings` construction. -/
def PineconeSettings.tryConstruct (e : PineconeEnv) : Except String PineconeSettings :=
  match e.environment, e.api_key, e.index_name with
  | some ev, some ak, some ix =>
    .ok { top_k := e.top_k
          strictness := e.strictness
          enable_in_domain := e.enable_in_domain
          environment := ev
          api_key := ak
          index_name := ix
          content_columns := e.content_columns
          vector_columns := e.vector_columns
          title_column := e.title_column
          url_column := e.url_column
          filename_column := e.filename_column
          authentication := .jobj [("type", .jstr "api_key"),
                                   ("api_key", .jstr ak)]
          fields_mapping := mkFieldsMapping e.content_columns e.vector_columns
            e.title_column e.url_column e.filename_column
          embedding_dependency := none }
  | _, _, _ =>
    .error "validation error: PINECONE_ENVIRONMENT, _API_KEY and _INDEX_NAME are required"

/-- Embedding of the Pinecone `model_dump(exclude_none=True, by_alias=True)`. -/
def pineconeDump (s : PineconeSettings) : List (String × JValue) :=
  [("top_n_documents", .jint s.top_k),
   ("strictness", .jint s.strictness),
   ("in_scope", .jbool s.enable_in_domain),
   ("environment", .jstr s.environment),
   ("index_name", .jstr s.index_name),
   ("query_type", .jstr "vector"),
   ("authentication", s.authentication)]
  ++ optEntry "embedding_dependency" s.embedding_dependency
  ++ [("fields_mapping", s.fields_mapping)]

/-- Embedding of `_PineconeSettings.construct_payload_configuration`. -/
def PineconeSettings.construct_payload_configuration
    (ref : SettingsRef) (s : PineconeSettings) : PineconeSettings × Payload :=
  let s := { s with embedding_dependency := ref.azure_openai.extract_embedding_dependency }
  (s, { type := "pinecone",
        parameters := dictUpdate (pineconeDump s) (searchDump ref.search) })

/-! ## `_AzureMLIndexSettings` (discriminator `AzureMLIndex`, tag `azure_ml_index`) -/

/-- Raw environment input of the Azure ML Index variant; its required fields
are `name`, `version` and `project_resource_id`.  It has no secret field and
no authentication descriptor at all. -/
structure AzureMLIndexEnv where
  top_k : Int := 5
  strictness : Int := 3
  enable_in_domain : Bool := true
  name : Option String := none
  version : Option String := none
  project_resource_id : Option String := none
  content_columns : Option (List String) := none
  vector_columns : Option (List String) := none
  title_column : Option String := none
  url_column : Option String := none
  filename_column : Option String := none

/-- The constructed Azure ML Index variant. -/
structure AzureMLIndexSettings where
  top_k : Int
  strictness : Int
  enable_in_domain : Bool
  name : String
  version : String
  project_resource_id : String
  content_columns : Option (List String)
  vector_columns : Option (List String)
  title_column : Option String
  url_column : Option String
  filename_column : Option String
  fields_mapping : JValue

/-- Embedding of `_AzureMLIndexSettings` construction. -/
def AzureMLIndexSettings.tryConstruct (e : AzureMLIndexEnv) :
    Except String AzureMLIndexSettings :=
  match e.name, e.version, e.project_resource_id with
  | some nm, some vs, some pr =>
    .ok { top_k := e.top_k
          strictness := e.strictness
          enable_in_domain := e.enable_in_domain
          name := nm
          version := vs
          project_resource_id := pr
          content_columns := e.content_columns
          vector_columns := e.vector_columns
          title_column := e.title_column
          url_column := e.url_column
          filename_column := e.filename_column
          fields_mapping := mkFieldsMapping e.content_columns e.vector_columns
            e.title_column e.url_column e.filename_column }
  | _, _, _ =>
    .error "validation error: AZURE_MLINDEX_NAME, _VERSION and AZURE_ML_PROJECT_RESOURCE_ID are required"

/-- Embedding of the Azure ML Index `model_dump(exclude_none=True, by_alias=True)`. -/
def azureMLIndexDump (s : AzureMLIndexSettings) : List (String × JValue) :=
  [("top_n_documents", .jint s.top_k),
   ("strictness", .jint s.strictness),
   ("in_scope", .jbool s.enable_in_domain),
   ("name", .jstr s.name),
   ("version", .jstr s.version),
   ("project_resource_id", .jstr s.project_resource_id),
   ("fields_mapping", s.fields_mapping)]

/-- Embedding of `_AzureMLIndexSettings.construct_payload_configuration`: no
filter, no authentication and no embedding dependency are involved. -/
def AzureMLIndexSettings.construct_payload_configuration
    (ref : SettingsRef) (s : AzureMLIndexSettings) : AzureMLIndexSettings × Payload :=
  (s, { type := "azure_ml_index",
        parameters := dictUpdate (azureMLIndexDump s) (searchDump ref.search) })

/-! ## `_AzureSqlServerSettings` (discriminator `AzureSqlServer`, tag `azure_sql_server`) -/

/-- Raw environment input of the SQL Server variant; every field is optional,
so construction never fails on a missing field. -/
structure AzureSqlServerEnv where
  connection_string : Option String := none
  table_schema : Option String := none
  schema_max_row : Option Int := none
  top_n_results : Option Int := none
  database_server : Option String := none
  database_name : Option String := none
  port : Option Int := none

/-- The constructed SQL Server variant; `authentication` stays unset when
neither a truthy connection string nor a truthy server/name/port triple is
configured. -/
structure AzureSqlServerSettings where
  connection_string : Option String
  table_schema : Option String
  schema_max_row : Option Int
  top_n_results : Option Int
  database_server : Option String
  database_name : Option String
  port : Option Int
  authentication : Option JValue

/-- Embedding of `_AzureSqlServerSettings` construction with its
`construct_authentication` validator: a truthy connection string wins, else
ambient identity when `database_server`, `database_name` and `port` are all
truthy, else `authentication` is left `None` and construction still succeeds. -/
def AzureSqlServerSettings.tryConstruct (e : AzureSqlServerEnv) :
    Except String AzureSqlServerSettings :=
  .ok { connection_string := e.connection_string
        table_schema := e.table_schema
        schema_max_row := e.schema_max_row
        top_n_results := e.top_n_results
        database_server := e.database_server
        database_name := e.database_name
        port := e.port
        authentication :=
          if pyTruthy e.connection_string then
            some (.jobj [("type", .jstr "connection_string"),
                         ("connection_string", .jstr (e.connection_string.getD ""))])
          else if pyTruthy e.database_server && pyTruthy e.database_name
              && pyTruthyInt e.port then
            some (.jobj [("type", .jstr "system_assigned_managed_identity")])
          else
            none }

/-- Embedding of the SQL Server `model_dump(exclude_none=True, by_alias=True)`:
`connection_string` is excluded, every other field is optional and dropped
when unset, and no field has a serialization alias. -/
def azureSqlServerDump (s : AzureSqlServerSettings) : List (String × JValue) :=
  optEntry "table_schema" (s.table_schema.map .jstr)
  ++ optEntry "schema_max_row" (s.schema_max_row.map .jint)
  ++ optEntry "top_n_results" (s.top_n_results.map .jint)
  ++ optEntry "database_server" (s.database_server.map .jstr)
  ++ optEntry "database_name" (s.database_name.map .jstr)
  ++ optEntry "port" (s.port.map .jint)
  ++ optEntry "authentication" s.authentication

/-- Embedding of `_AzureSqlServerSettings.construct_payload_configuration`:
the update with the search-defaults dump is commented out in the source, so
the parameters map is the variant's own dump alone. -/
def AzureSqlServerSettings.construct_payload_configuration
    (s : AzureSqlServerSettings) : AzureSqlServerSettings × Payload :=
  (s, { type := "azure_sql_server", parameters := azureSqlServerDump s })

/-! ## `_MongoDbSettings` (discriminator `MongoDB`, tag `mongo_db`) -/

/-- Raw environment input of the Mongo DB variant; its required fields are
`endpoint`, `username`, `password`, `database_name`, `collection_name`,
`app_name` and `index_name`. -/
structure MongoDbEnv where
  endpoint : Option String := none
  username : Option String := none
  password : Option String := none
  database_name : Option String := none
  collection_name : Option String := none
  app_name : Option String := none
  index_name : Option String := none
  top_k : Int := 5
  strictness : Int := 3
  enable_in_domain : Bool := true
  content_columns : Option (List String) := none
  vector_columns : Option (List String) := none
  title_column : Option String := none
  url_column : Option String := none
  filename_column : Option String := none

/-- The constructed Mongo DB variant; its `query_type` is literally `vector`. -/
structure MongoDbSettings where
  endpoint : String
  username : String
  password : String
  database_name : String
  collection_name : String
  app_name : String
  index_name : String
  top_k : Int
  strictness : Int
  enable_in_domain : Bool
  content_columns : Option (List String)
  vector_columns : Option (List String)
  title_column : Option String
  url_column : Option String
  filename_column : Option String
  authentication : JValue
  fields_mapping : JValue
  embedding_dependency : Option JValue

/-- Embedding of `_MongoDbSettings` construction with its
`set_fields_mapping` and `construct_authentication` validators. -/
def MongoDbSettings.tryConstruct (e : MongoDbEnv) : Except String MongoDbSettings :=
  match e.endpoint, e.username, e.password, e.database_name,
      e.collection_name, e.app_name, e.index_name with
  | some ep, some un, some pw, some db, some cl, some ap, some ix =>
    .ok { endpoint := ep
          username := un
          password := pw
          database_name := db
          collection_name := cl
          app_name := ap
          index_name := ix
          top_k := e.top_k
          strictness := e.strictness
          enable_in_domain := e.enable_in_domain
          content_columns := e.content_columns
          vector_columns := e.vector_columns
          title_column := e.title_column
          url_column := e.url_column
          filename_column := e.filename_column
          authentication := .jobj [("type", .jstr "username_and_password"),
                                   ("username", .jstr un),
                                   ("password", .jstr pw)]
          fields_mapping := mkFieldsMapping e.content_columns e.vector_columns
            e.title_column e.url_column e.filename_column
          embedding_dependency := none }
  | _, _, _, _, _, _, _ =>
    .error "validation error: MONGODB_ENDPOINT, _USERNAME, _PASSWORD, _DATABASE_NAME, _COLLECTION_NAME, _APP_NAME and _INDEX_NAME are required"

/-- Embedding of the Mongo DB `model_dump(exclude_none=True, by_alias=True)`:
`username` and `password` are excluded. -/
def mongoDbDump (s : MongoDbSettings) : List (String × JValue) :=
  [("endpoint", .jstr s.endpoint),
   ("database_name", .jstr s.database_name),
   ("collection_name", .jstr s.collection_name),
   ("app_name", .jstr s.app_name),
   ("index_name", .jstr s.index_name),
   ("query_type", .jstr "vector"),
   ("top_n_documents", .jint s.top_k),
   ("strictness", .jint s.strictness),
   ("in_scope", .jbool s.enable_in_domain),
   ("authentication", s.authentication)]
  ++ optEntry "embedding_dependency" s.embedding_dependency
  ++ [("fields_mapping", s.fields_mapping)]

/-- Embedding of `_MongoDbSettings.construct_payload_configuration`. -/
def MongoDbSettings.construct_payload_configuration
    (ref : SettingsRef) (s : MongoDbSettings) : MongoDbSettings × Payload :=
  let s := { s with embedding_dependency := ref.azure_openai.extract_embedding_dependency }
  (s, { type := "mongo_db",
        parameters := dictUpdate (mongoDbDump s) (searchDump ref.search) })

/-! ## The root: datasource selection and the application-settings aggregate -/

/-- The closed union of the seven datasource variants, the value the root
holds behind the `DatasourcePayloadConstructor` interface. -/
inductive Datasource where
  | azureSearch : AzureSearchSettings → Datasource
  | cosmos : AzureCosmosDbMongoVcoreSettings → Datasource
  | elastic : ElasticsearchSettings → Datasource
  | pinecone : PineconeSettings → Datasource
  | mlIndex : AzureMLIndexSettings → Datasource
  | sqlServer : AzureSqlServerSettings → Datasource
  | mongoDb : MongoDbSettings → Datasource

/-- Polymorphic dispatch of `construct_payload_configuration` over the active
variant.  Only the Azure Search variant consumes the request (for the
access-control filter) and can fail; every other variant ignores it. -/
def Datasource.construct_payload_configuration (gfs : String → String)
    (ref : SettingsRef) (d : Datasource) (request : Option Request) :
    Except String (Datasource × Payload) :=
  match d with
  | .azureSearch s =>
    (s.construct_payload_configuration gfs ref request).map
      fun r => (.azureSearch r.1, r.2)
  | .cosmos s =>
    let r := s.construct_payload_configuration ref
    .ok (.cosmos r.1, r.2)
  | .elastic s =>
    let r := s.construct_payload_configuration ref
    .ok (.elastic r.1, r.2)
  | .pinecone s =>
    let r := s.construct_payload_configuration ref
    .ok (.pinecone r.1, r.2)
  | .mlIndex s =>
    let r := s.construct_payload_configuration ref
    .ok (.mlIndex r.1, r.2)
  | .sqlServer s =>
    let r := s.construct_payload_configuration
    .ok (.sqlServer r.1, r.2)
  | .mongoDb s =>
    let r := s.construct_payload_configuration ref
    .ok (.mongoDb r.1, r.2)

/-- The environment slices each variant family would read, gathered so the
root's discriminator switch can construct whichever variant is selected. -/
structure DatasourceEnv where
  azureSearch : AzureSearchEnv := {}
  cosmos : AzureCosmosDbMongoVcoreEnv := {}
  elastic : ElasticsearchEnv := {}
  pinecone : PineconeEnv := {}
  mlIndex : AzureMLIndexEnv := {}
  sqlServer : AzureSqlServerEnv := {}
  mongoDb : MongoDbEnv := {}

/-- The warning the root logs when it ends up without a datasource. -/
def noDatasourceWarning : String :=
  "No datasource configuration found in the environment -- calls will be made to Azure OpenAI without grounding data."

/-- Construction of the variant a recognized discriminator value selects:
`none` for an unrecognized value, `some` of the construction attempt
otherwise. -/
def datasourceFor (datasource_type : String) (env : DatasourceEnv) :
    Option (Except String Datasource) :=
  if datasource_type = "AzureCognitiveSearch" then
    some ((AzureSearchSettings.tryConstruct env.azureSearch).map .azureSearch)
  else if datasource_type = "AzureCosmosDB" then
    some ((AzureCosmosDbMongoVcoreSettings.tryConstruct env.cosmos).map .cosmos)
  else if datasource_type = "Elasticsearch" then
    some ((ElasticsearchSettings.tryConstruct env.elastic).map .elastic)
  else if datasource_type = "Pinecone" then
    some ((PineconeSettings.tryConstruct env.pinecone).map .pinecone)
  else if datasource_type = "AzureMLIndex" then
    some ((AzureMLIndexSettings.tryConstruct env.mlIndex).map .mlIndex)
  else if datasource_type = "AzureSqlServer" then
    some ((AzureSqlServerSettings.tryConstruct env.sqlServer).map .sqlServer)
  else if datasource_type = "MongoDB" then
    some ((MongoDbSettings.tryConstruct env.mongoDb).map .mongoDb)
  else
    none

/-- Embedding of `_AppSettings.set_datasource_settings`: the discriminator
switch runs under a `try`, a `ValidationError` from the chosen variant's
construction is caught and logged as the no-datasource warning followed by
the error detail, and an unrecognized or absent discriminator logs the same
warning; in every case the root completes with the returned datasource (the
function is total, embedding that no exception escapes). -/
def set_datasource_settings (datasource_type : Option String) (env : DatasourceEnv) :
    Option Datasource × List String :=
  match datasource_type with
  | some dt =>
    match datasourceFor dt env with
    | some (.ok d) => (some d, [])
    | some (.error e) => (none, [noDatasourceWarning, e])
    | none => (none, [noDatasourceWarning])
  | none => (none, [noDatasourceWarning])

/-- The application-settings root, reduced to the groups and state the claims
read: the model group, the search group, the selected datasource and the
warnings logged while selecting it. -/
structure AppSettings where
  azure_openai : AzureOpenAISettings
  search : SearchCommonSettings
  datasource : Option Datasource
  log : List String

/-- Embedding of `_AppSettings` construction (the part past the independent
groups): the root always completes, holding whatever
`set_datasource_settings` produced. -/
def AppSettings.construct (azure_openai : AzureOpenAISettings)
    (search : SearchCommonSettings) (datasource_type : Option String)
    (env : DatasourceEnv) : AppSettings :=
  let r := set_datasource_settings datasource_type env
  { azure_openai := azure_openai, search := search,
    datasource := r.1, log := r.2 }

/-- Read-only back-reference of an `AppSettings` root. -/
def AppSettings.ref (a : AppSettings) : SettingsRef :=
  { azure_openai := a.azure_openai, search := a.search }

/-- Modelled from the spec: the root's `constructDatasourcePayload(requestContext?)`
accessor lives in the web-route layer, outside the embedded module; per the
spec it returns none when no datasource is configured and otherwise asks the
active variant to construct its payload. -/
def constructDatasourcePayload (gfs : String → String) (a : AppSettings)
    (request : Option Request) :
    Option (Except String (Datasource × Payload)) :=
  a.datasource.map fun d => d.construct_payload_configuration gfs a.ref request

/-- Type tag of the payload the active datasource constructs with no request
context, when that construction succeeds. -/
def constructedPayloadType (gfs : String → String) (a : AppSettings) : Option String :=
  match constructDatasourcePayload gfs a none with
  | some (.ok r) => some r.2.type
  | _ => none

/-! ## General lemmas about the merged parameters map -/

/-- Lookup misses a key no entry of the list carries. -/
theorem lookup_none_of_keys {β : Type} (k : String) (l : List (String × β))
    (h : ∀ kv ∈ l, kv.1 ≠ k) : l.lookup k = none := by
  induction l with
  | nil => rfl
  | cons x xs ih =>
    have hx : x.1 ≠ k := h x (by simp)
    have hbeq : (k == x.1) = false := by
      rw [beq_eq_false_iff_ne]
      exact fun he => hx he.symm
    obtain ⟨a, b⟩ := x
    have hstep : List.lookup k ((a, b) :: xs) = List.lookup k xs := by
      simp only [List.lookup, hbeq]
    rw [hstep]
    exact ih fun kv hkv => h kv (List.mem_cons_of_mem _ hkv)

/-- When the key sets of the two maps are disjoint, Python `dict.update` is
plain concatenation, and so is the spec's variant-wins union: the collision
policy is moot. -/
theorem merge_eq_of_key_disjoint (base upd : List (String × JValue))
    (bk uk : List String)
    (hb : ∀ kv ∈ base, kv.1 ∈ bk) (hu : ∀ kv ∈ upd, kv.1 ∈ uk)
    (hdisj : ∀ a ∈ bk, ∀ b ∈ uk, a ≠ b) :
    dictUpdate base upd = base ++ upd ∧ specUnion base upd = base ++ upd := by
  have hlookupU : ∀ kv ∈ base, upd.lookup kv.1 = none := by
    intro kv hkv
    exact lookup_none_of_keys _ _ fun uv huv =>
      (hdisj kv.1 (hb kv hkv) uv.1 (hu uv huv)).symm
  have hlookupB : ∀ uv ∈ upd, base.lookup uv.1 = none := by
    intro uv huv
    exact lookup_none_of_keys _ _ fun kv hkv =>
      hdisj kv.1 (hb kv hkv) uv.1 (hu uv huv)
  constructor
  · unfold dictUpdate
    congr 1
    · apply List.map_congr_left ?_ |>.trans (List.map_id base)
      intro kv hkv
      simp [hlookupU kv hkv]
    · apply List.filter_eq_self.mpr
      intro uv huv
      simp [hlookupB uv huv]
  · unfold specUnion
    congr 1
    apply List.filter_eq_self.mpr
    intro uv huv
    simp [hlookupB uv huv]

/-- Key inventory of the search-defaults dump. -/
def searchKeys : List String :=
  ["max_search_queries", "allow_partial_result", "include_contexts",
   "vectorization_dimensions", "role_information"]

/-- Append combinator for a per-key property of a dump. -/
theorem keys_append {P : String → Prop} {l1 l2 : List (String × JValue)}
    (h1 : ∀ kv ∈ l1, P kv.1) (h2 : ∀ kv ∈ l2, P kv.1) :
    ∀ kv ∈ l1 ++ l2, P kv.1 := by
  intro kv hkv
  rcases List.mem_append.mp hkv with h | h
  · exact h1 kv h
  · exact h2 kv h

/-- Cons combinator for a per-key property of a dump. -/
theorem keys_cons {P : String → Prop} {k : String} {j : JValue}
    {l : List (String × JValue)} (hk : P k) (hl : ∀ kv ∈ l, P kv.1) :
    ∀ kv ∈ (k, j) :: l, P kv.1 := by
  intro kv hkv
  rcases List.mem_cons.mp hkv with h | h
  · rw [h]; exact hk
  · exact hl kv h

/-- Nil case for a per-key property of a dump. -/
theorem keys_nil {P : String → Prop} :
    ∀ kv ∈ ([] : List (String × JValue)), P kv.1 := by
  intro kv hkv
  exact absurd hkv (List.not_mem_nil kv)

/-- Optional-entry combinator for a per-key property of a dump. -/
theorem keys_optEntry {P : String → Prop} {k : String} {v : Option JValue}
    (hk : P k) : ∀ kv ∈ optEntry k v, P kv.1 := by
  intro kv hkv
  cases v with
  | none => exact absurd hkv (List.not_mem_nil kv)
  | some j =>
    rw [List.mem_singleton.mp hkv]
    exact hk

/-- Every entry of the search-defaults dump carries one of its five keys. -/
theorem searchDump_keys (r : SearchCommonSettings) :
    ∀ kv ∈ searchDump r, kv.1 ∈ searchKeys :=
  keys_append (keys_append (keys_append
    (keys_optEntry (by decide))
    (keys_cons (by decide) (keys_cons (by decide) keys_nil)))
    (keys_optEntry (by decide)))
    (keys_cons (by decide) keys_nil)

/-- Lookup distributes over append, trying the left list first. -/
theorem lookup_append {β : Type} (k : String) (l1 l2 : List (String × β)) :
    (l1 ++ l2).lookup k = ((l1.lookup k).orElse fun _ => l2.lookup k) := by
  induction l1 with
  | nil => rfl
  | cons x xs ih =>
    obtain ⟨a, b⟩ := x
    by_cases hab : (k == a) = true
    · simp [List.lookup, hab, Option.orElse]
    · rw [Bool.not_eq_true] at hab
      simp [List.lookup, hab, ih]

/-- Lookup misses an optional entry carrying a different key. -/
theorem optEntry_lookup_of_ne (k2 k : String) (v : Option JValue)
    (h : (k2 == k) = false) : (optEntry k v).lookup k2 = none := by
  cases v with
  | none => rfl
  | some j => simp [optEntry, List.lookup, h]

/-- Lookup hits an optional entry carrying its key. -/
theorem optEntry_lookup_self (k : String) (v : Option JValue) :
    (optEntry k v).lookup k = v := by
  cases v with
  | none => rfl
  | some j => simp [optEntry, List.lookup]

/-- A key outside a dump's key inventory is not found in it. -/
theorem lookup_none_of_keys_notmem {β : Type} (k : String) (l : List (String × β))
    (ks : List String) (hl : ∀ kv ∈ l, kv.1 ∈ ks) (hk : k ∉ ks) :
    l.lookup k = none :=
  lookup_none_of_keys k l fun kv hkv he => hk (he ▸ hl kv hkv)

/-- Key inventory of the Azure Search variant dump. -/
def azureSearchParamKeys : List String :=
  ["top_n_documents", "strictness", "in_scope", "index_name",
   "semantic_configuration", "query_type", "endpoint", "authentication",
   "embedding_dependency", "fields_mapping"]

/-- Every entry of the Azure Search dump carries one of its keys. -/
theorem azureSearchDump_keys (s : AzureSearchSettings) :
    ∀ kv ∈ azureSearchDump s, kv.1 ∈ azureSearchParamKeys :=
  keys_append (keys_append
    (keys_cons (by decide) (keys_cons (by decide) (keys_cons (by decide)
      (keys_cons (by decide) (keys_cons (by decide) (keys_cons (by decide)
      (keys_cons (by decide) (keys_cons (by decide) keys_nil))))))))
    (keys_optEntry (by decide)))
    (keys_cons (by decide) keys_nil)

/-- Key inventory of the CosmosDB Mongo vCore variant dump. -/
def cosmosParamKeys : List String :=
  ["top_n_documents", "strictness", "in_scope", "query_type", "index_name",
   "database_name", "container_name", "authentication",
   "embedding_dependency", "fields_mapping"]

/-- Every entry of the CosmosDB Mongo vCore dump carries one of its keys. -/
theorem cosmosDump_keys (s : AzureCosmosDbMongoVcoreSettings) :
    ∀ kv ∈ cosmosDump s, kv.1 ∈ cosmosParamKeys :=
  keys_append (keys_append
    (keys_cons (by decide) (keys_cons (by decide) (keys_cons (by decide)
      (keys_cons (by decide) (keys_cons (by decide) (keys_cons (by decide)
      (keys_cons (by decide) (keys_cons (by decide) keys_nil))))))))
    (keys_optEntry (by decide)))
    (keys_cons (by decide) keys_nil)

/-- Key inventory of the Elasticsearch variant dump. -/
def elasticsearchParamKeys : List String :=
  ["top_n_documents", "strictness", "in_scope", "endpoint", "index_name",
   "query_type", "authentication", "embedding_dependency", "fields_mapping"]

/-- Every entry of the Elasticsearch dump carries one of its keys. -/
theorem elasticsearchDump_keys (s : ElasticsearchSettings) :
    ∀ kv ∈ elasticsearchDump s, kv.1 ∈ elasticsearchParamKeys :=
  keys_append (keys_append
    (keys_cons (by decide) (keys_cons (by decide) (keys_cons (by decide)
      (keys_cons (by decide) (keys_cons (by decide) (keys_cons (by decide)
      (keys_cons (by decide) keys_nil)))))))
    (keys_optEntry (by decide)))
    (keys_cons (by decide) keys_nil)

/-- Key inventory of the Pinecone variant dump. -/
def pineconeParamKeys : List String :=
  ["top_n_documents", "strictness", "in_scope", "environment", "index_name",
   "query_type", "authentication", "embedding_dependency", "fields_mapping"]

/-- Every entry of the Pinecone dump carries one of its keys. -/
theorem pineconeDump_keys (s : PineconeSettings) :
    ∀ kv ∈ pineconeDump s, kv.1 ∈ pineconeParamKeys :=
  keys_append (keys_append
    (keys_cons (by decide) (keys_cons (by decide) (keys_cons (by decide)
      (keys_cons (by decide) (keys_cons (by decide) (keys_cons (by decide)
      (keys_cons (by decide) keys_nil)))))))
    (keys_optEntry (by decide)))
    (keys_cons (by decide) keys_nil)

/-- Key inventory of the Azure ML Index variant dump. -/
def azureMLIndexParamKeys : List String :=
  ["top_n_documents", "strictness", "in_scope", "name", "version",
   "project_resource_id", "fields_mapping"]

/-- Every entry of the Azure ML Index dump carries one of its keys. -/
theorem azureMLIndexDump_keys (s : AzureMLIndexSettings) :
    ∀ kv ∈ azureMLIndexDump s, kv.1 ∈ azureMLIndexParamKeys :=
  keys_cons (by decide) (keys_cons (by decide) (keys_cons (by decide)
    (keys_cons (by decide) (keys_cons (by decide) (keys_cons (by decide)
    (keys_cons (by decide) keys_nil))))))

/-- Key inventory of the Mongo DB variant dump. -/
def mongoDbParamKeys : List String :=
  ["endpoint", "database_name", "collection_name", "app_name", "index_name",
   "query_type", "top_n_documents", "strictness", "in_scope",
   "authentication", "embedding_dependency", "fields_mapping"]

/-- Every entry of the Mongo DB dump carries one of its keys. -/
theorem mongoDbDump_keys (s : MongoDbSettings) :
    ∀ kv ∈ mongoDbDump s, kv.1 ∈ mongoDbParamKeys :=
  keys_append (keys_append
    (keys_cons (by decide) (keys_cons (by decide) (keys_cons (by decide)
      (keys_cons (by decide) (keys_cons (by decide) (keys_cons (by decide)
      (keys_cons (by decide) (keys_cons (by decide) (keys_cons (by decide)
      (keys_cons (by decide) keys_nil))))))))))
    (keys_optEntry (by decide)))
    (keys_cons (by decide) keys_nil)

/-- The Azure Search dump's keys are disjoint from the search-defaults dump's
keys, so the update and the spec's variant-wins union coincide. -/
theorem azureSearch_merge (s : AzureSearchSettings) (r : SearchCommonSettings) :
    dictUpdate (azureSearchDump s) (searchDump r) = azureSearchDump s ++ searchDump r ∧
    specUnion (azureSearchDump s) (searchDump r) = azureSearchDump s ++ searchDump r :=
  merge_eq_of_key_disjoint _ _ azureSearchParamKeys searchKeys
    (azureSearchDump_keys s) (searchDump_keys r) (by decide)

/-- Key disjointness for the CosmosDB Mongo vCore merge. -/
theorem cosmos_merge (s : AzureCosmosDbMongoVcoreSettings) (r : SearchCommonSettings) :
    dictUpdate (cosmosDump s) (searchDump r) = cosmosDump s ++ searchDump r ∧
    specUnion (cosmosDump s) (searchDump r) = cosmosDump s ++ searchDump r :=
  merge_eq_of_key_disjoint _ _ cosmosParamKeys searchKeys
    (cosmosDump_keys s) (searchDump_keys r) (by decide)

/-- Key disjointness for the Elasticsearch merge. -/
theorem elasticsearch_merge (s : ElasticsearchSettings) (r : SearchCommonSettings) :
    dictUpdate (elasticsearchDump s) (searchDump r) = elasticsearchDump s ++ searchDump r ∧
    specUnion (elasticsearchDump s) (searchDump r) = elasticsearchDump s ++ searchDump r :=
  merge_eq_of_key_disjoint _ _ elasticsearchParamKeys searchKeys
    (elasticsearchDump_keys s) (searchDump_keys r) (by decide)

/-- Key disjointness for the Pinecone merge. -/
theorem pinecone_merge (s : PineconeSettings) (r : SearchCommonSettings) :
    dictUpdate (pineconeDump s) (searchDump r) = pineconeDump s ++ searchDump r ∧
    specUnion (pineconeDump s) (searchDump r) = pineconeDump s ++ searchDump r :=
  merge_eq_of_key_disjoint _ _ pineconeParamKeys searchKeys
    (pineconeDump_keys s) (searchDump_keys r) (by decide)

/-- Key disjointness for the Azure ML Index merge. -/
theorem azureMLIndex_merge (s : AzureMLIndexSettings) (r : SearchCommonSettings) :
    dictUpdate (azureMLIndexDump s) (searchDump r) = azureMLIndexDump s ++ searchDump r ∧
    specUnion (azureMLIndexDump s) (searchDump r) = azureMLIndexDump s ++ searchDump r :=
  merge_eq_of_key_disjoint _ _ azureMLIndexParamKeys searchKeys
    (azureMLIndexDump_keys s) (searchDump_keys r) (by decide)

/-- Key disjointness for the Mongo DB merge. -/
theorem mongoDb_merge (s : MongoDbSettings) (r : SearchCommonSettings) :
    dictUpdate (mongoDbDump s) (searchDump r) = mongoDbDump s ++ searchDump r ∧
    specUnion (mongoDbDump s) (searchDump r) = mongoDbDump s ++ searchDump r :=
  merge_eq_of_key_disjoint _ _ mongoDbParamKeys searchKeys
    (mongoDbDump_keys s) (searchDump_keys r) (by decide)

/-- No Azure Search payload parameters map ever carries a `filter` key: the
`filter` field is declared with `exclude=True`, so it is absent from the
variant dump's key inventory, and the search-defaults dump has no such key
either. -/
theorem azureSearch_params_no_filter (s : AzureSearchSettings) (r : SearchCommonSettings) :
    (dictUpdate (azureSearchDump s) (searchDump r)).lookup "filter" = none := by
  rw [(azureSearch_merge s r).1, lookup_append,
    lookup_none_of_keys_notmem _ _ _ (azureSearchDump_keys s) (by decide),
    lookup_none_of_keys_notmem _ _ _ (searchDump_keys r) (by decide)]
  rfl

/-- Stepping lemma: `construct_payload_configuration` with no request context
leaves the transient filter untouched, resolves the embedding dependency and
merges the two dumps. -/
theorem azureSearch_cpc_none (gfs : String → String) (ref : SettingsRef)
    (s : AzureSearchSettings) :
    s.construct_payload_configuration gfs ref none =
      .ok ({ s with embedding_dependency := ref.azure_openai.extract_embedding_dependency },
           { type := "azure_search",
             parameters := dictUpdate
               (azureSearchDump { s with
                  embedding_dependency := ref.azure_openai.extract_embedding_dependency })
               (searchDump ref.search) }) := rfl

/-- Stepping lemma: with a request context and a falsy access-control column
the filter step is skipped entirely. -/
theorem azureSearch_cpc_nocol (gfs : String → String) (ref : SettingsRef)
    (s : AzureSearchSettings) (req : Request)
    (hcol : pyTruthy s.permitted_groups_column = false) :
    s.construct_payload_configuration gfs ref (some req) =
      .ok ({ s with embedding_dependency := ref.azure_openai.extract_embedding_dependency },
           { type := "azure_search",
             parameters := dictUpdate
               (azureSearchDump { s with
                  embedding_dependency := ref.azure_openai.extract_embedding_dependency })
               (searchDump ref.search) }) := by
  unfold AzureSearchSettings.construct_payload_configuration
  rw [hcol]
  rfl

/-- Stepping lemma: with a request context, a truthy access-control column and
an empty token header the call fails with the missing-token error. -/
theorem azureSearch_cpc_notoken (gfs : String → String) (ref : SettingsRef)
    (s : AzureSearchSettings) (req : Request)
    (hcol : pyTruthy s.permitted_groups_column = true)
    (htok : (req.getHeader "X-MS-TOKEN-AAD-ACCESS-TOKEN").isEmpty = true) :
    s.construct_payload_configuration gfs ref (some req) =
      .error "Document-level access control is enabled, but user access token could not be fetched." := by
  unfold AzureSearchSettings.construct_payload_configuration
  unfold AzureSearchSettings.set_filter_string
  simp only [hcol, htok, if_true, Bool.false_eq_true, if_false]
  rfl

/-- Stepping lemma: with a request context, a truthy access-control column and
a non-empty token header the filter is recomputed from this request's token
and the payload is built from the rewritten state. -/
theorem azureSearch_cpc_token (gfs : String → String) (ref : SettingsRef)
    (s : AzureSearchSettings) (req : Request)
    (hcol : pyTruthy s.permitted_groups_column = true)
    (htok : (req.getHeader "X-MS-TOKEN-AAD-ACCESS-TOKEN").isEmpty = false) :
    s.construct_payload_configuration gfs ref (some req) =
      .ok ({ s with
               filter := some (gfs (req.getHeader "X-MS-TOKEN-AAD-ACCESS-TOKEN")),
               embedding_dependency := ref.azure_openai.extract_embedding_dependency },
           { type := "azure_search",
             parameters := dictUpdate
               (azureSearchDump { s with
                  filter := some (gfs (req.getHeader "X-MS-TOKEN-AAD-ACCESS-TOKEN")),
                  embedding_dependency := ref.azure_openai.extract_embedding_dependency })
               (searchDump ref.search) }) := by
  unfold AzureSearchSettings.construct_payload_configuration
  unfold AzureSearchSettings.set_filter_string
  simp only [hcol, htok, if_true, Bool.false_eq_true, if_false]
  rfl

/-! ## Concrete fixtures for counterexamples and witnesses -/

/-- Concrete filter builder standing in for the external `generateFilterString`. -/
def gfs0 : String → String := fun t => "group_ids/any(g:search.in(g, " ++ t ++ "))"

/-- Concrete constructed model-settings group with no embedding configuration. -/
def ao0 : AzureOpenAISettings := { endpoint := "https://res.openai.azure.com" }

/-- Concrete back-reference: the model group `ao0` and a default search group. -/
def ref0 : SettingsRef := { azure_openai := ao0, search := {} }

/-- Environment of an Azure Search variant with an access-control column. -/
def asColEnv : AzureSearchEnv :=
  { service := some "svc", index := some "idx", permitted_groups_column := some "grp" }

/-- The Azure Search variant `asColEnv` constructs. -/
def asCol : AzureSearchSettings :=
  { top_k := 5, strictness := 3, enable_in_domain := true, service := "svc",
    endpoint_suffix := "search.windows.net", index := "idx", key := none,
    semantic_search_config := "", content_columns := none, vector_columns := none,
    title_column := none, url_column := none, filename_column := none,
    query_type := "simple", permitted_groups_column := some "grp",
    endpoint := "https://svc.search.windows.net",
    authentication := .jobj [("type", .jstr "system_assigned_managed_identity")],
    fields_mapping := mkFieldsMapping none none none none none,
    embedding_dependency := none, filter := none }

/-- Environment of the same variant with the access-control column unset. -/
def asNoColEnv : AzureSearchEnv := { service := some "svc", index := some "idx" }

/-- The Azure Search variant `asNoColEnv` constructs. -/
def asNoCol : AzureSearchSettings := { asCol with permitted_groups_column := none }

/-- A request carrying one caller's bearer token. -/
def reqA : Request := { headers := [("X-MS-TOKEN-AAD-ACCESS-TOKEN", "token-alice")] }

/-- A request carrying another caller's bearer token. -/
def reqB : Request := { headers := [("X-MS-TOKEN-AAD-ACCESS-TOKEN", "token-bob")] }

/-- A request with no token header at all. -/
def reqEmpty : Request := { headers := [] }

/-- The SQL Server variant constructed from an empty environment. -/
def sqls0 : AzureSqlServerSettings :=
  { connection_string := none, table_schema := none, schema_max_row := none,
    top_n_results := none, database_server := none, database_name := none,
    port := none, authentication := none }

/-- Sequential composition of the two payload-construction calls of claim C1:
the first from the freshly constructed variant with the first caller's
request, the second from the state the first call left behind, with the
second caller's request. -/
def C1calls : Except String ((AzureSearchSettings × Payload) × (AzureSearchSettings × Payload)) := do
  let r1 ← asCol.construct_payload_configuration gfs0 ref0 (some reqA)
  let r2 ← r1.1.construct_payload_configuration gfs0 ref0 (some reqB)
  pure (r1, r2)

/-! ## Claims -/

/-- Claim C1, counterexample: on a variant with an access-control column, two
calls with two different bearer tokens both succeed, but neither payload
carries any `filter` value at all — the `filter` field is declared with
`exclude=True`, so the payloads cannot carry distinct, correctly-attributed
filter values as the claim states. -/
theorem C1_counterexample :
    (C1calls.map fun rr =>
      (rr.1.2.parameters.lookup "filter", rr.2.2.parameters.lookup "filter"))
      = .ok (none, none) ∧
    ¬ ∃ v1 v2, (C1calls.map fun rr =>
      (rr.1.2.parameters.lookup "filter", rr.2.2.parameters.lookup "filter"))
      = .ok (some v1, some v2) := by
  constructor
  · rfl
  · rintro ⟨v1, v2, h⟩
    have h0 : (C1calls.map fun rr =>
        (rr.1.2.parameters.lookup "filter", rr.2.2.parameters.lookup "filter"))
        = .ok ((none : Option JValue), (none : Option JValue)) := rfl
    rw [h0] at h
    simp at h

/-- Claim C1 (amended): for a variant with an access-control column, each call
of `construct_payload_configuration` recomputes the transient filter from
scratch from its own request's token — after each call the instance filter
field is the filter for that call's token — but the filter field is excluded
from serialization, so neither payload contains a `filter` value; in
particular a filter computed for one caller never appears in a payload built
for another. -/
theorem C1_theorem (gfs : String → String) (ref : SettingsRef)
    (s : AzureSearchSettings) (r1 r2 : Request)
    (hcol : pyTruthy s.permitted_groups_column = true)
    (h1 : (r1.getHeader "X-MS-TOKEN-AAD-ACCESS-TOKEN").isEmpty = false)
    (h2 : (r2.getHeader "X-MS-TOKEN-AAD-ACCESS-TOKEN").isEmpty = false) :
    ∃ s1 p1 s2 p2,
      s.construct_payload_configuration gfs ref (some r1) = .ok (s1, p1) ∧
      s1.construct_payload_configuration gfs ref (some r2) = .ok (s2, p2) ∧
      s1.filter = some (gfs (r1.getHeader "X-MS-TOKEN-AAD-ACCESS-TOKEN")) ∧
      s2.filter = some (gfs (r2.getHeader "X-MS-TOKEN-AAD-ACCESS-TOKEN")) ∧
      p1.parameters.lookup "filter" = none ∧
      p2.parameters.lookup "filter" = none := by
  refine ⟨_, _, _, _, azureSearch_cpc_token gfs ref s r1 hcol h1,
    azureSearch_cpc_token gfs ref _ r2 hcol h2, rfl, rfl, ?_, ?_⟩
  · exact azureSearch_params_no_filter _ _
  · exact azureSearch_params_no_filter _ _

/-- Witness for C1 at the concrete fixture: the column is configured, both
requests carry non-empty tokens, and the amended conclusion holds. -/
theorem C1_witness :
    pyTruthy asCol.permitted_groups_column = true ∧
    (reqA.getHeader "X-MS-TOKEN-AAD-ACCESS-TOKEN").isEmpty = false ∧
    (reqB.getHeader "X-MS-TOKEN-AAD-ACCESS-TOKEN").isEmpty = false ∧
    ∃ s1 p1 s2 p2,
      asCol.construct_payload_configuration gfs0 ref0 (some reqA) = .ok (s1, p1) ∧
      s1.construct_payload_configuration gfs0 ref0 (some reqB) = .ok (s2, p2) ∧
      s1.filter = some (gfs0 (reqA.getHeader "X-MS-TOKEN-AAD-ACCESS-TOKEN")) ∧
      s2.filter = some (gfs0 (reqB.getHeader "X-MS-TOKEN-AAD-ACCESS-TOKEN")) ∧
      p1.parameters.lookup "filter" = none ∧
      p2.parameters.lookup "filter" = none :=
  ⟨rfl, rfl, rfl, C1_theorem gfs0 ref0 asCol reqA reqB rfl rfl rfl⟩

/-- Claim C2: when the chosen backend's construction fails validation, the
root catches the failure, logs the no-datasource warning together with the
error detail, and completes its own construction with no active datasource —
the error does not propagate. -/
theorem C2_theorem (ao : AzureOpenAISettings) (se : SearchCommonSettings)
    (dt : String) (env : DatasourceEnv) (e : String)
    (h : datasourceFor dt env = some (.error e)) :
    AppSettings.construct ao se (some dt) env =
      { azure_openai := ao, search := se, datasource := none,
        log := [noDatasourceWarning, e] } := by
  have hss : set_datasource_settings (some dt) env = (none, [noDatasourceWarning, e]) := by
    show (match datasourceFor dt env with
      | some (Except.ok d) => (some d, ([] : List String))
      | some (Except.error err) => (none, [noDatasourceWarning, err])
      | none => (none, [noDatasourceWarning])) = (none, [noDatasourceWarning, e])
    rw [h]
  unfold AppSettings.construct
  rw [hss]

/-- Witness for C2: selecting Azure Search with its required fields absent
fails construction, and the root degrades to no datasource with the warning
logged. -/
theorem C2_witness :
    datasourceFor "AzureCognitiveSearch" {} =
      some (.error "validation error: AZURE_SEARCH_SERVICE and AZURE_SEARCH_INDEX are required") ∧
    AppSettings.construct ao0 {} (some "AzureCognitiveSearch") {} =
      { azure_openai := ao0, search := {}, datasource := none,
        log := [noDatasourceWarning,
          "validation error: AZURE_SEARCH_SERVICE and AZURE_SEARCH_INDEX are required"] } :=
  ⟨rfl, C2_theorem ao0 {} "AzureCognitiveSearch" {} _ rfl⟩

/-- Shape of every successful Azure Search payload: the tag is fixed and the
parameters map is the dump of the returned state updated with the
search-defaults dump. -/
theorem azureSearch_cpc_ok_shape (gfs : String → String) (ref : SettingsRef)
    (s : AzureSearchSettings) (req : Option Request)
    (r : AzureSearchSettings × Payload)
    (h : s.construct_payload_configuration gfs ref req = .ok r) :
    r.2.type = "azure_search" ∧
    r.2.parameters = dictUpdate (azureSearchDump r.1) (searchDump ref.search) := by
  cases req with
  | none =>
    rw [azureSearch_cpc_none] at h
    injection h with h2
    rw [← h2]
    exact ⟨rfl, rfl⟩
  | some rq =>
    cases hcol : pyTruthy s.permitted_groups_column with
    | false =>
      rw [azureSearch_cpc_nocol gfs ref s rq hcol] at h
      injection h with h2
      rw [← h2]
      exact ⟨rfl, rfl⟩
    | true =>
      cases htok : (rq.getHeader "X-MS-TOKEN-AAD-ACCESS-TOKEN").isEmpty with
      | true =>
        rw [azureSearch_cpc_notoken gfs ref s rq hcol htok] at h
        exact Except.noConfusion h
      | false =>
        rw [azureSearch_cpc_token gfs ref s rq hcol htok] at h
        injection h with h2
        rw [← h2]
        exact ⟨rfl, rfl⟩

/-- Claim C3, counterexample: the SQL Server variant does not merge the search
group's fields (the update is commented out in the source), so its payload
parameters miss `role_information` while the spec's union carries it; the
claimed equality fails. -/
theorem C3_counterexample :
    (AzureSqlServerSettings.construct_payload_configuration sqls0).2.parameters.lookup
      "role_information" = none ∧
    (specUnion (azureSqlServerDump sqls0) (searchDump ref0.search)).lookup "role_information"
      = some (.jstr "You are an AI assistant that helps people find information.") ∧
    (AzureSqlServerSettings.construct_payload_configuration sqls0).2.parameters
      ≠ specUnion (azureSqlServerDump sqls0) (searchDump ref0.search) := by
  refine ⟨rfl, rfl, fun h => ?_⟩
  have h2 : false = true :=
    congrArg (fun l => (List.lookup "role_information" l).isSome) h
  exact Bool.noConfusion h2

/-- Fixed type tag of each datasource variant. -/
def Datasource.tag : Datasource → String
  | .azureSearch _ => "azure_search"
  | .cosmos _ => "azure_cosmosdb"
  | .elastic _ => "elasticsearch"
  | .pinecone _ => "pinecone"
  | .mlIndex _ => "azure_ml_index"
  | .sqlServer _ => "azure_sql_server"
  | .mongoDb _ => "mongo_db"

/-- The parameters map the amended claim C3 predicts for each variant: the
spec's variant-wins union of the variant dump with the search-defaults dump,
except for the SQL Server variant, whose payload is its own dump alone. -/
def Datasource.claimedParameters (ref : SettingsRef) : Datasource → List (String × JValue)
  | .azureSearch s => specUnion (azureSearchDump s) (searchDump ref.search)
  | .cosmos s => specUnion (cosmosDump s) (searchDump ref.search)
  | .elastic s => specUnion (elasticsearchDump s) (searchDump ref.search)
  | .pinecone s => specUnion (pineconeDump s) (searchDump ref.search)
  | .mlIndex s => specUnion (azureMLIndexDump s) (searchDump ref.search)
  | .sqlServer s => azureSqlServerDump s
  | .mongoDb s => specUnion (mongoDbDump s) (searchDump ref.search)

/-- Claim C3 (amended): every successful payload is the two-field
`type`/`parameters` structure whose tag is the variant's fixed tag; for every
variant except the SQL Server one the parameters map is the variant's own
non-null serializable fields unioned with the search group's non-null fields
(the key sets are disjoint by construction, so the collision policy is moot
and the spec's variant-wins union coincides with the search-wins update the
code computes); the SQL Server variant's parameters are its own non-null
fields alone, with no search-group fields merged. -/
theorem C3_theorem (gfs : String → String) (ref : SettingsRef) (d : Datasource)
    (req : Option Request) (d2 : Datasource) (p : Payload)
    (h : d.construct_payload_configuration gfs ref req = .ok (d2, p)) :
    p.type = d2.tag ∧ p.parameters = d2.claimedParameters ref := by
  cases d with
  | azureSearch s =>
    simp only [Datasource.construct_payload_configuration] at h
    cases hc : s.construct_payload_configuration gfs ref req with
    | error e => rw [hc] at h; exact Except.noConfusion h
    | ok r =>
      rw [hc] at h
      obtain ⟨hty, hpar⟩ := azureSearch_cpc_ok_shape gfs ref s req r hc
      injection h with h2
      injection h2 with hd hp
      subst hd
      subst hp
      exact ⟨hty, hpar.trans ((azureSearch_merge r.1 ref.search).1.trans
        (azureSearch_merge r.1 ref.search).2.symm)⟩
  | cosmos s =>
    simp only [Datasource.construct_payload_configuration] at h
    injection h with h2
    injection h2 with hd hp
    subst hd
    subst hp
    exact ⟨rfl, (cosmos_merge _ ref.search).1.trans (cosmos_merge _ ref.search).2.symm⟩
  | elastic s =>
    simp only [Datasource.construct_payload_configuration] at h
    injection h with h2
    injection h2 with hd hp
    subst hd
    subst hp
    exact ⟨rfl, (elasticsearch_merge _ ref.search).1.trans
      (elasticsearch_merge _ ref.search).2.symm⟩
  | pinecone s =>
    simp only [Datasource.construct_payload_configuration] at h
    injection h with h2
    injection h2 with hd hp
    subst hd
    subst hp
    exact ⟨rfl, (pinecone_merge _ ref.search).1.trans (pinecone_merge _ ref.search).2.symm⟩
  | mlIndex s =>
    simp only [Datasource.construct_payload_configuration] at h
    injection h with h2
    injection h2 with hd hp
    subst hd
    subst hp
    exact ⟨rfl, (azureMLIndex_merge _ ref.search).1.trans
      (azureMLIndex_merge _ ref.search).2.symm⟩
  | sqlServer s =>
    simp only [Datasource.construct_payload_configuration] at h
    injection h with h2
    injection h2 with hd hp
    subst hd
    subst hp
    exact ⟨rfl, rfl⟩
  | mongoDb s =>
    simp only [Datasource.construct_payload_configuration] at h
    injection h with h2
    injection h2 with hd hp
    subst hd
    subst hp
    exact ⟨rfl, (mongoDb_merge _ ref.search).1.trans (mongoDb_merge _ ref.search).2.symm⟩

/-- Witness for C3 at the concrete SQL Server fixture. -/
theorem C3_witness :
    (Datasource.sqlServer sqls0).construct_payload_configuration gfs0 ref0 none
      = .ok (.sqlServer sqls0,
             (AzureSqlServerSettings.construct_payload_configuration sqls0).2) ∧
    ((AzureSqlServerSettings.construct_payload_configuration sqls0).2.type
        = (Datasource.sqlServer sqls0).tag ∧
     (AzureSqlServerSettings.construct_payload_configuration sqls0).2.parameters
        = (Datasource.sqlServer sqls0).claimedParameters ref0) :=
  ⟨rfl, C3_theorem gfs0 ref0 (.sqlServer sqls0) none (.sqlServer sqls0) _ rfl⟩

/-- The `fields_mapping` entry of the Azure Search dump carries the variant's
field-mapping descriptor verbatim. -/
theorem azureSearchDump_lookup_fm (s : AzureSearchSettings) :
    (azureSearchDump s).lookup "fields_mapping" = some s.fields_mapping := by
  unfold azureSearchDump
  rw [lookup_append, lookup_append, optEntry_lookup_of_ne _ _ _ (by decide)]
  rfl

/-- The merged parameters map carries the field-mapping descriptor verbatim. -/
theorem azureSearch_params_fm (s : AzureSearchSettings) (r : SearchCommonSettings) :
    (dictUpdate (azureSearchDump s) (searchDump r)).lookup "fields_mapping"
      = some s.fields_mapping := by
  rw [(azureSearch_merge s r).1, lookup_append, azureSearchDump_lookup_fm]
  rfl

/-- Claim C4, counterexample: with all five role columns unset, the emitted
field-mapping descriptor does not omit the roles — it contains all five role
keys, each with an explicit null value.  `exclude_none` drops `None`-valued
model fields but does not reach inside the plain dict the descriptor is
stored in. -/
theorem C4_counterexample :
    ((AzureSearchSettings.construct_payload_configuration gfs0 ref0 asNoCol none).map
        fun r => r.2.parameters.lookup "fields_mapping")
      = .ok (some (.jobj [("content_fields", .jnull), ("title_field", .jnull),
                          ("url_field", .jnull), ("filepath_field", .jnull),
                          ("vector_fields", .jnull)])) := rfl

/-- Claim C4 (amended): for every combination of the five role columns, the
field-mapping descriptor emitted in the payload contains all five role
entries in a fixed order; a role whose source column is unset is emitted
with an explicit null value rather than omitted, and a role whose column is
configured carries that column value. -/
theorem C4_theorem (gfs : String → String) (ref : SettingsRef) (e : AzureSearchEnv)
    (s : AzureSearchSettings) (h : AzureSearchSettings.tryConstruct e = .ok s) :
    ((s.construct_payload_configuration gfs ref none).map
        fun r => r.2.parameters.lookup "fields_mapping")
      = .ok (some (.jobj [("content_fields", optListJ e.content_columns),
                          ("title_field", optStrJ e.title_column),
                          ("url_field", optStrJ e.url_column),
                          ("filepath_field", optStrJ e.filename_column),
                          ("vector_fields", optListJ e.vector_columns)])) := by
  unfold AzureSearchSettings.tryConstruct at h
  cases hsv : e.service with
  | none => rw [hsv] at h; exact Except.noConfusion h
  | some sv =>
    cases hix : e.index with
    | none => rw [hsv, hix] at h; exact Except.noConfusion h
    | some ix =>
      rw [hsv, hix] at h
      injection h with h2
      rw [azureSearch_cpc_none]
      simp only [Except.map]
      rw [azureSearch_params_fm]
      rw [← h2]
      rfl

/-- Environment of the C4 witness: content and title columns configured, the
remaining three roles unset. -/
def c4Env : AzureSearchEnv :=
  { asNoColEnv with content_columns := some ["c1", "c2"], title_column := some "ttl" }

/-- The Azure Search variant `c4Env` constructs. -/
def c4Settings : AzureSearchSettings :=
  { asNoCol with
    content_columns := some ["c1", "c2"]
    title_column := some "ttl"
    fields_mapping := mkFieldsMapping (some ["c1", "c2"]) none (some "ttl") none none }

/-- Witness for C4 at a mixed combination of role columns. -/
theorem C4_witness :
    AzureSearchSettings.tryConstruct c4Env = .ok c4Settings ∧
    ((c4Settings.construct_payload_configuration gfs0 ref0 none).map
        fun r => r.2.parameters.lookup "fields_mapping")
      = .ok (some (.jobj [("content_fields", optListJ c4Env.content_columns),
                          ("title_field", optStrJ c4Env.title_column),
                          ("url_field", optStrJ c4Env.url_column),
                          ("filepath_field", optStrJ c4Env.filename_column),
                          ("vector_fields", optListJ c4Env.vector_columns)])) :=
  ⟨rfl, C4_theorem gfs0 ref0 c4Env c4Settings rfl⟩

/-- Claim C5: for the model-settings group, a truthy explicit endpoint is kept
unchanged; with no truthy endpoint but a truthy short resource name the
endpoint is synthesized as `https://` plus the resource plus the well-known
domain; with neither, construction of the group fails. -/
theorem C5_theorem (e : AzureOpenAISettingsEnv) :
    (pyTruthy e.endpoint = true →
      ∃ s, ensure_endpoint e = .ok s ∧ e.endpoint = some s.endpoint) ∧
    (pyTruthy e.endpoint = false → pyTruthy e.resource = true →
      ∃ s, ensure_endpoint e = .ok s ∧
        s.endpoint = "https://" ++ e.resource.getD "" ++ ".openai.azure.com") ∧
    (pyTruthy e.endpoint = false → pyTruthy e.resource = false →
      ensure_endpoint e = .error "AZURE_OPENAI_ENDPOINT or AZURE_OPENAI_RESOURCE is required") := by
  refine ⟨?_, ?_, ?_⟩
  · intro h
    refine ⟨{ endpoint := e.endpoint.getD "", embedding_name := e.embedding_name,
              embedding_endpoint := e.embedding_endpoint,
              embedding_key := e.embedding_key }, ?_, ?_⟩
    · simp [ensure_endpoint, h]
    · cases he : e.endpoint with
      | none => rw [he] at h; exact Bool.noConfusion h
      | some v => rfl
  · intro h1 h2
    refine ⟨{ endpoint := "https://" ++ e.resource.getD "" ++ ".openai.azure.com",
              embedding_name := e.embedding_name,
              embedding_endpoint := e.embedding_endpoint,
              embedding_key := e.embedding_key }, ?_, rfl⟩
    simp [ensure_endpoint, h1, h2]
  · intro h1 h2
    simp [ensure_endpoint, h1, h2]

/-- Witness for C5 at the three concrete configurations: explicit endpoint,
resource only, and neither. -/
theorem C5_witness :
    (∃ s, ensure_endpoint { endpoint := some "https://x.example" } = .ok s ∧
      ({ endpoint := some "https://x.example" } : AzureOpenAISettingsEnv).endpoint
        = some s.endpoint) ∧
    (∃ s, ensure_endpoint { resource := some "res" } = .ok s ∧
      s.endpoint = "https://"
        ++ ({ resource := some "res" } : AzureOpenAISettingsEnv).resource.getD ""
        ++ ".openai.azure.com") ∧
    ensure_endpoint {} = .error "AZURE_OPENAI_ENDPOINT or AZURE_OPENAI_RESOURCE is required" :=
  ⟨(C5_theorem { endpoint := some "https://x.example" }).1 rfl,
   (C5_theorem { resource := some "res" }).2.1 rfl rfl,
   (C5_theorem {}).2.2 rfl rfl⟩

/-- Environment carrying each backend's minimal required fields at once. -/
def minimalEnv (sv ix ccs cix cdb cct eep eak eix pev pak pix mn mv mpr
    ge gu gp gdb gcl gap gix : String) : DatasourceEnv :=
  { azureSearch := { service := some sv, index := some ix }
    cosmos := { connection_string := some ccs, index := some cix,
                database := some cdb, container := some cct }
    elastic := { endpoint := some eep, encoded_api_key := some eak, index := some eix }
    pinecone := { environment := some pev, api_key := some pak, index_name := some pix }
    mlIndex := { name := some mn, version := some mv, project_resource_id := some mpr }
    sqlServer := {}
    mongoDb := { endpoint := some ge, username := some gu, password := some gp,
                 database_name := some gdb, collection_name := some gcl,
                 app_name := some gap, index_name := some gix } }

/-- Claim C6: each of the seven recognized discriminator values, with that
backend's minimal required fields supplied, yields an active datasource
variant whose constructed payload carries the fixed expected type tag. -/
theorem C6_theorem (gfs : String → String) (ao : AzureOpenAISettings)
    (se : SearchCommonSettings)
    (sv ix ccs cix cdb cct eep eak eix pev pak pix mn mv mpr
      ge gu gp gdb gcl gap gix : String) :
    constructedPayloadType gfs (AppSettings.construct ao se (some "AzureCognitiveSearch")
      (minimalEnv sv ix ccs cix cdb cct eep eak eix pev pak pix mn mv mpr
        ge gu gp gdb gcl gap gix)) = some "azure_search" ∧
    constructedPayloadType gfs (AppSettings.construct ao se (some "AzureCosmosDB")
      (minimalEnv sv ix ccs cix cdb cct eep eak eix pev pak pix mn mv mpr
        ge gu gp gdb gcl gap gix)) = some "azure_cosmosdb" ∧
    constructedPayloadType gfs (AppSettings.construct ao se (some "Elasticsearch")
      (minimalEnv sv ix ccs cix cdb cct eep eak eix pev pak pix mn mv mpr
        ge gu gp gdb gcl gap gix)) = some "elasticsearch" ∧
    constructedPayloadType gfs (AppSettings.construct ao se (some "Pinecone")
      (minimalEnv sv ix ccs cix cdb cct eep eak eix pev pak pix mn mv mpr
        ge gu gp gdb gcl gap gix)) = some "pinecone" ∧
    constructedPayloadType gfs (AppSettings.construct ao se (some "AzureMLIndex")
      (minimalEnv sv ix ccs cix cdb cct eep eak eix pev pak pix mn mv mpr
        ge gu gp gdb gcl gap gix)) = some "azure_ml_index" ∧
    constructedPayloadType gfs (AppSettings.construct ao se (some "AzureSqlServer")
      (minimalEnv sv ix ccs cix cdb cct eep eak eix pev pak pix mn mv mpr
        ge gu gp gdb gcl gap gix)) = some "azure_sql_server" ∧
    constructedPayloadType gfs (AppSettings.construct ao se (some "MongoDB")
      (minimalEnv sv ix ccs cix cdb cct eep eak eix pev pak pix mn mv mpr
        ge gu gp gdb gcl gap gix)) = some "mongo_db" :=
  ⟨rfl, rfl, rfl, rfl, rfl, rfl, rfl⟩

/-- Claim C7, counterexample: on a variant with the access-control column
configured, a call that supplies no request context at all — hence no usable
bearer token — does not raise the missing-token error: the filter step is
silently skipped and the call succeeds. -/
theorem C7_counterexample :
    pyTruthy asCol.permitted_groups_column = true ∧
    (asCol.construct_payload_configuration gfs0 ref0 none).toOption.isSome = true :=
  ⟨rfl, rfl⟩

/-- Claim C7 (amended): with the access-control column configured, a call
that supplies a request context whose token header is empty raises the
missing-token error; a call that supplies no request context at all succeeds
and skips the filter computation, leaving the transient filter untouched;
with the column unset, the call succeeds with or without a request and the
resulting parameters map contains no `filter` key. -/
theorem C7_theorem (gfs : String → String) (ref : SettingsRef)
    (s : AzureSearchSettings) (req : Request) :
    (pyTruthy s.permitted_groups_column = true →
      (req.getHeader "X-MS-TOKEN-AAD-ACCESS-TOKEN").isEmpty = true →
      s.construct_payload_configuration gfs ref (some req) =
        .error "Document-level access control is enabled, but user access token could not be fetched.") ∧
    (pyTruthy s.permitted_groups_column = true →
      ∃ s1 p1, s.construct_payload_configuration gfs ref none = .ok (s1, p1) ∧
        s1.filter = s.filter) ∧
    (pyTruthy s.permitted_groups_column = false →
      ∀ oreq : Option Request, ∃ s1 p1,
        s.construct_payload_configuration gfs ref oreq = .ok (s1, p1) ∧
        p1.parameters.lookup "filter" = none) := by
  refine ⟨fun hcol htok => azureSearch_cpc_notoken gfs ref s req hcol htok, ?_, ?_⟩
  · intro hcol
    exact ⟨_, _, azureSearch_cpc_none gfs ref s, rfl⟩
  · intro hcol oreq
    cases oreq with
    | none => exact ⟨_, _, azureSearch_cpc_none gfs ref s, azureSearch_params_no_filter _ _⟩
    | some rq =>
      exact ⟨_, _, azureSearch_cpc_nocol gfs ref s rq hcol, azureSearch_params_no_filter _ _⟩

/-- Witness for C7: the missing-token error fires on a tokenless request with
the column configured, and the column-less variant succeeds with no `filter`
key. -/
theorem C7_witness :
    pyTruthy asCol.permitted_groups_column = true ∧
    (reqEmpty.getHeader "X-MS-TOKEN-AAD-ACCESS-TOKEN").isEmpty = true ∧
    asCol.construct_payload_configuration gfs0 ref0 (some reqEmpty) =
      .error "Document-level access control is enabled, but user access token could not be fetched." ∧
    pyTruthy asNoCol.permitted_groups_column = false ∧
    ∃ s1 p1, asNoCol.construct_payload_configuration gfs0 ref0 none = .ok (s1, p1) ∧
      p1.parameters.lookup "filter" = none :=
  ⟨rfl, rfl, (C7_theorem gfs0 ref0 asCol reqEmpty).1 rfl rfl, rfl,
   (C7_theorem gfs0 ref0 asNoCol reqEmpty).2.2 rfl none⟩

/-- The SQL Server variant constructed from an empty environment is `sqls0`. -/
theorem sqls0_construct : AzureSqlServerSettings.tryConstruct {} = .ok sqls0 := rfl

/-- Claim C8, counterexample: the SQL Server variant with no secret and no
connection string — and not all of server, database name and port — neither
fails validation nor resolves ambient identity: construction succeeds with
the authentication descriptor left entirely unset. -/
theorem C8_counterexample :
    AzureSqlServerSettings.tryConstruct {} = .ok sqls0 ∧
    sqls0.authentication = none :=
  ⟨rfl, rfl⟩

/-- Environment of the ML Index witness. -/
def mlEnv0 : AzureMLIndexEnv :=
  { name := some "nm", version := some "1", project_resource_id := some "prid" }

/-- The ML Index variant `mlEnv0` constructs. -/
def mls0 : AzureMLIndexSettings :=
  { top_k := 5, strictness := 3, enable_in_domain := true, name := "nm",
    version := "1", project_resource_id := "prid", content_columns := none,
    vector_columns := none, title_column := none, url_column := none,
    filename_column := none, fields_mapping := mkFieldsMapping none none none none none }

/-- Claim C8 (amended): with no explicit secret or connection-string field
set, the Azure Search variant resolves its authentication descriptor to
ambient identity; the CosmosDB, Elasticsearch, Pinecone and Mongo DB
variants fail validation (their secret fields are required); the ML Index
variant has no authentication descriptor at all yet constructs successfully,
emitting no `authentication` key; and the SQL Server variant constructs
successfully, resolving ambient identity only when database server, database
name and port are all truthy and otherwise leaving authentication unset. -/
theorem C8_theorem :
    (∀ e : AzureSearchEnv, pyTruthy e.key = false →
      ∀ s, AzureSearchSettings.tryConstruct e = .ok s →
        s.authentication = .jobj [("type", .jstr "system_assigned_managed_identity")]) ∧
    (∀ e : AzureCosmosDbMongoVcoreEnv, e.connection_string = none →
      ∃ msg, AzureCosmosDbMongoVcoreSettings.tryConstruct e = .error msg) ∧
    (∀ e : ElasticsearchEnv, e.encoded_api_key = none →
      ∃ msg, ElasticsearchSettings.tryConstruct e = .error msg) ∧
    (∀ e : PineconeEnv, e.api_key = none →
      ∃ msg, PineconeSettings.tryConstruct e = .error msg) ∧
    (∀ e : MongoDbEnv, e.username = none →
      ∃ msg, MongoDbSettings.tryConstruct e = .error msg) ∧
    (∀ e : AzureMLIndexEnv, ∀ s, AzureMLIndexSettings.tryConstruct e = .ok s →
      (azureMLIndexDump s).lookup "authentication" = none) ∧
    (∀ e : AzureSqlServerEnv, pyTruthy e.connection_string = false →
      ∃ s, AzureSqlServerSettings.tryConstruct e = .ok s ∧
        s.authentication =
          (if pyTruthy e.database_server && pyTruthy e.database_name
              && pyTruthyInt e.port then
            some (.jobj [("type", .jstr "system_assigned_managed_identity")])
          else none)) := by
  refine ⟨?_, ?_, ?_, ?_, ?_, ?_, ?_⟩
  · intro e hkey s h
    unfold AzureSearchSettings.tryConstruct at h
    cases hsv : e.service with
    | none => rw [hsv] at h; exact Except.noConfusion h
    | some sv =>
      cases hix : e.index with
      | none => rw [hsv, hix] at h; exact Except.noConfusion h
      | some ix =>
        rw [hsv, hix] at h
        injection h with h2
        rw [← h2]
        show (if pyTruthy e.key then _ else _) = _
        rw [hkey]
        rfl
  · intro e hcs
    unfold AzureCosmosDbMongoVcoreSettings.tryConstruct
    rw [hcs]
    exact ⟨_, rfl⟩
  · intro e hak
    unfold ElasticsearchSettings.tryConstruct
    rw [hak]
    cases e.endpoint <;> exact ⟨_, rfl⟩
  · intro e hak
    unfold PineconeSettings.tryConstruct
    rw [hak]
    cases e.environment <;> exact ⟨_, rfl⟩
  · intro e hun
    unfold MongoDbSettings.tryConstruct
    rw [hun]
    cases e.endpoint <;> exact ⟨_, rfl⟩
  · intro e s h
    unfold AzureMLIndexSettings.tryConstruct at h
    cases hnm : e.name with
    | none => rw [hnm] at h; exact Except.noConfusion h
    | some nm =>
      cases hvs : e.version with
      | none => rw [hnm, hvs] at h; exact Except.noConfusion h
      | some vs =>
        cases hpr : e.project_resource_id with
        | none => rw [hnm, hvs, hpr] at h; exact Except.noConfusion h
        | some pr =>
          rw [hnm, hvs, hpr] at h
          injection h with h2
          rw [← h2]
          rfl
  · intro e hcs
    refine ⟨_, rfl, ?_⟩
    show (if pyTruthy e.connection_string then _ else _) = _
    rw [hcs]
    rfl

/-- Witness for C8 covering each backend at a concrete input. -/
theorem C8_witness :
    asNoCol.authentication = .jobj [("type", .jstr "system_assigned_managed_identity")] ∧
    (∃ msg, AzureCosmosDbMongoVcoreSettings.tryConstruct {} = .error msg) ∧
    (∃ msg, ElasticsearchSettings.tryConstruct {} = .error msg) ∧
    (∃ msg, PineconeSettings.tryConstruct {} = .error msg) ∧
    (∃ msg, MongoDbSettings.tryConstruct {} = .error msg) ∧
    (azureMLIndexDump mls0).lookup "authentication" = none ∧
    ∃ s, AzureSqlServerSettings.tryConstruct {} = .ok s ∧
      s.authentication =
        (if pyTruthy (({} : AzureSqlServerEnv)).database_server
            && pyTruthy (({} : AzureSqlServerEnv)).database_name
            && pyTruthyInt (({} : AzureSqlServerEnv)).port then
          some (.jobj [("type", .jstr "system_assigned_managed_identity")])
        else none) :=
  ⟨C8_theorem.1 asNoColEnv rfl asNoCol rfl,
   C8_theorem.2.1 {} rfl,
   C8_theorem.2.2.1 {} rfl,
   C8_theorem.2.2.2.1 {} rfl,
   C8_theorem.2.2.2.2.1 {} rfl,
   C8_theorem.2.2.2.2.2.1 mlEnv0 mls0 rfl,
   C8_theorem.2.2.2.2.2.2 {} rfl⟩

/-- The list of the seven recognized discriminator values. -/
def recognizedDatasourceTypes : List String :=
  ["AzureCognitiveSearch", "AzureCosmosDB", "Elasticsearch", "Pinecone",
   "AzureMLIndex", "AzureSqlServer", "MongoDB"]

/-- Claim C9: an absent discriminator, or any value outside the recognized
set of seven, leaves the root with no active datasource, logs the warning,
and yields no datasource payload — all without any exception (the embedded
construction is total). -/
theorem C9_theorem (gfs : String → String) (ao : AzureOpenAISettings)
    (se : SearchCommonSettings) (env : DatasourceEnv) (req : Option Request)
    (o : Option String)
    (h : ∀ dt, o = some dt → dt ∉ recognizedDatasourceTypes) :
    (AppSettings.construct ao se o env).datasource = none ∧
    (AppSettings.construct ao se o env).log = [noDatasourceWarning] ∧
    constructDatasourcePayload gfs (AppSettings.construct ao se o env) req = none := by
  have hds : set_datasource_settings o env = (none, [noDatasourceWarning]) := by
    cases o with
    | none => rfl
    | some dt =>
      have hne : ∀ x : String, x ∈ recognizedDatasourceTypes → dt ≠ x :=
        fun x hx he => h dt rfl (by rw [he]; exact hx)
      show (match datasourceFor dt env with
        | some (Except.ok d) => (some d, ([] : List String))
        | some (Except.error err) => (none, [noDatasourceWarning, err])
        | none => (none, [noDatasourceWarning])) = (none, [noDatasourceWarning])
      have hdf : datasourceFor dt env = none := by
        unfold datasourceFor
        rw [if_neg (hne "AzureCognitiveSearch" (by decide)),
            if_neg (hne "AzureCosmosDB" (by decide)),
            if_neg (hne "Elasticsearch" (by decide)),
            if_neg (hne "Pinecone" (by decide)),
            if_neg (hne "AzureMLIndex" (by decide)),
            if_neg (hne "AzureSqlServer" (by decide)),
            if_neg (hne "MongoDB" (by decide))]
      rw [hdf]
  unfold AppSettings.construct constructDatasourcePayload
  rw [hds]
  exact ⟨rfl, rfl, rfl⟩

/-- Witness for C9 at a concrete unrecognized discriminator value. -/
theorem C9_witness :
    (AppSettings.construct ao0 {} (some "FooBar") {}).datasource = none ∧
    (AppSettings.construct ao0 {} (some "FooBar") {}).log = [noDatasourceWarning] ∧
    constructDatasourcePayload gfs0 (AppSettings.construct ao0 {} (some "FooBar") {}) none = none :=
  C9_theorem gfs0 ao0 {} {} none (some "FooBar")
    (by intro dt hdt; injection hdt with h2; subst h2; decide)

/-- The `authentication` entry is absent from the SQL Server dump whenever
the authentication descriptor is unset. -/
theorem azureSqlServerDump_lookup_auth (s : AzureSqlServerSettings)
    (h : s.authentication = none) :
    (azureSqlServerDump s).lookup "authentication" = none := by
  unfold azureSqlServerDump
  rw [h]
  simp only [lookup_append]
  rw [optEntry_lookup_of_ne _ _ _ (by decide), optEntry_lookup_of_ne _ _ _ (by decide),
      optEntry_lookup_of_ne _ _ _ (by decide), optEntry_lookup_of_ne _ _ _ (by decide),
      optEntry_lookup_of_ne _ _ _ (by decide), optEntry_lookup_of_ne _ _ _ (by decide)]
  rfl

/-- Claim C10: for the SQL Server variant with the connection string unset
and at least one of database server, database name and port unset,
construction still succeeds, the authentication descriptor stays unset, and
the emitted payload parameters contain no `authentication` key at all. -/
theorem C10_theorem (e : AzureSqlServerEnv)
    (hcs : e.connection_string = none)
    (hone : e.database_server = none ∨ e.database_name = none ∨ e.port = none) :
    ∃ s, AzureSqlServerSettings.tryConstruct e = .ok s ∧
      s.authentication = none ∧
      (AzureSqlServerSettings.construct_payload_configuration s).2.parameters.lookup
        "authentication" = none := by
  have hauth : (if pyTruthy e.connection_string then
        some (JValue.jobj [("type", .jstr "connection_string"),
          ("connection_string", .jstr (e.connection_string.getD ""))])
      else if pyTruthy e.database_server && pyTruthy e.database_name
          && pyTruthyInt e.port then
        some (JValue.jobj [("type", .jstr "system_assigned_managed_identity")])
      else none) = none := by
    rw [hcs]
    rcases hone with h | h | h <;> simp [h, pyTruthy, pyTruthyInt]
  exact ⟨_, rfl, hauth, azureSqlServerDump_lookup_auth _ hauth⟩

/-- Witness for C10 at the empty SQL Server environment. -/
theorem C10_witness :
    ({} : AzureSqlServerEnv).connection_string = none ∧
    ∃ s, AzureSqlServerSettings.tryConstruct {} = .ok s ∧
      s.authentication = none ∧
      (AzureSqlServerSettings.construct_payload_configuration s).2.parameters.lookup
        "authentication" = none :=
  ⟨rfl, C10_theorem {} rfl (Or.inl rfl)⟩
